import Mathlib

/-
Verification of the VizGenie workflow orchestration engine against its
natural-language specification.

The definitions below are a shallow embedding of the Python sources:
  src/state/graph_state.py   (the typed state and its reducer annotations)
  src/agents/vizgenie_agents.py  (the stage handler nodes)
  src/agents/workflow.py     (the stage graph and its routers)
  src/tools/vizgenie_tools.py    (the structural query validator and the
                                  provider-facing tool wrappers)
External capability providers (LLM calls, vector search, Grafana and
Prometheus HTTP handlers) are modelled as function-valued parameters in a
Providers record; a provider call that the Python tool wrapper converts to
a success flag plus payload or error string is modelled as Except String.
The LangGraph channel reducers are modelled explicitly by applyUpdate:
fields annotated with operator.add concatenate, all other fields replace
when the partial update carries them and persist otherwise.
-/

namespace VizGenie

/-- The QueryType enum of src/state/graph_state.py. -/
inductive QueryType where
| PROMETHEUS
| POSTGRES
| MIXED
deriving DecidableEq

/-- The ProcessingStage enum of src/state/graph_state.py. -/
inductive ProcessingStage where
| INITIALIZED
| INTENT_EXTRACTED
| METRICS_EXTRACTED
| SIMILARITY_SEARCHED
| QUERY_GENERATED
| QUERY_VALIDATED
| DASHBOARD_GENERATED
| DEPLOYED
| FAILED
deriving DecidableEq

/-- One entry of available_datasources: a Grafana datasource dict with its
name, uid and an optional declared type key (extract_intent_node reads it
with ds.get, falling back to the name when the key is absent). -/
structure Datasource where
mk ::
  name : String
  uid : String
  dstype : Option String
deriving DecidableEq

/-- The QueryContext TypedDict of src/state/graph_state.py. -/
structure QueryContext where
mk ::
  query_text : String
  datasource_name : String
  datasource_uid : String
  datasource_type : String
  query_type : QueryType
deriving DecidableEq

/-- The MetricsContext TypedDict of src/state/graph_state.py; the
metric_labels dict is modelled as an association list. -/
structure MetricsContext where
mk ::
  suggested_metrics : List String
  suggested_labels : List String
  similar_metrics : List String
  metric_labels : List (String × List String)
deriving DecidableEq

/-- The GeneratedQuery TypedDict of src/state/graph_state.py. -/
structure GeneratedQuery where
mk ::
  datasource_uid : String
  original_query : String
  generated_query : String
  query_type : String
  is_valid : Bool
  validation_errors : Option (List String)
deriving DecidableEq

/-- One dashboard panel as generate_dashboard_node reads it: its title
(panel.get with default empty) and the uid of its datasource (the uid key
of the datasource dict, or the bare string form). -/
structure Panel where
mk ::
  title : String
  datasource_uid : String
deriving DecidableEq

/-- The DashboardSpec TypedDict of src/state/graph_state.py. -/
structure DashboardSpec where
mk ::
  title : String
  panels : List Panel
  uid : String
  deployed_url : Option String
deriving DecidableEq

/-- The dashboard JSON returned by the dashboard-synthesis provider; title
and uid keys may be absent (generate_dashboard_node reads them with
defaults). -/
structure DashboardJson where
mk ::
  title : Option String
  uid : Option String
  panels : List Panel
deriving DecidableEq

/-- The successful payload of the deploy tool: url and uid of the deployed
dashboard. -/
structure DeployResult where
mk ::
  url : String
  uid : String
deriving DecidableEq

/-- One entry of the errors channel; the optional query and retry_count
keys appear only in some handlers. -/
structure ErrorRecord where
mk ::
  stage : String
  error : String
  query : Option String
  retry_count : Option Nat
deriving DecidableEq

/-- The VizGenieState TypedDict of src/state/graph_state.py, restricted to
the fields the claims touch (execution_log is append-only and never read
by control logic, grafana fields are never read by the nodes modelled
here). -/
structure VizGenieState where
mk ::
  user_queries : List QueryContext
  prometheus_url : String
  postgres_url : String
  available_datasources : List Datasource
  current_stage : ProcessingStage
  current_query_index : Nat
  metrics_contexts : List MetricsContext
  generated_queries : List GeneratedQuery
  dashboard_spec : Option DashboardSpec
  deployment_result : Option DeployResult
  errors : List ErrorRecord
  retry_count : Nat
  max_retries : Nat
  start_time : Option String
  end_time : Option String
deriving DecidableEq

/-- A partial state update returned by a node: none or an empty list means
the node did not put that key in its returned dict. -/
structure StateUpdate where
mk ::
  user_queries : Option (List QueryContext)
  current_stage : Option ProcessingStage
  current_query_index : Option Nat
  metrics_contexts : List MetricsContext
  generated_queries : List GeneratedQuery
  dashboard_spec : Option DashboardSpec
  deployment_result : Option DeployResult
  errors : List ErrorRecord
  retry_count : Option Nat
  max_retries : Option Nat
  start_time : Option String
  end_time : Option String

/-- The update carrying no keys at all. -/
def emptyUpdate : StateUpdate :=
  ⟨none, none, none, [], [], none, none, [], none, none, none, none⟩

/-- The LangGraph merge of a partial update into the channel state:
metrics_contexts, generated_queries and errors are Annotated with
operator.add in src/state/graph_state.py, so the returned list is
concatenated onto the existing one; every other field is replaced when the
update carries it and kept otherwise. -/
def applyUpdate (s : VizGenieState) (u : StateUpdate) : VizGenieState :=
  { user_queries := u.user_queries.getD s.user_queries
    prometheus_url := s.prometheus_url
    postgres_url := s.postgres_url
    available_datasources := s.available_datasources
    current_stage := u.current_stage.getD s.current_stage
    current_query_index := u.current_query_index.getD s.current_query_index
    metrics_contexts := s.metrics_contexts ++ u.metrics_contexts
    generated_queries := s.generated_queries ++ u.generated_queries
    dashboard_spec := match u.dashboard_spec with
      | some d => some d
      | none => s.dashboard_spec
    deployment_result := match u.deployment_result with
      | some d => some d
      | none => s.deployment_result
    errors := s.errors ++ u.errors
    retry_count := u.retry_count.getD s.retry_count
    max_retries := u.max_retries.getD s.max_retries
    start_time := match u.start_time with
      | some t => some t
      | none => s.start_time
    end_time := match u.end_time with
      | some t => some t
      | none => s.end_time }

/-- The opening brace character, written via its code point. -/
def lbrace : Char := Char.ofNat 123

/-- The closing brace character, written via its code point. -/
def rbrace : Char := Char.ofNat 125

/-- Python falsiness-or-blankness test (not query or query.strip() empty):
the string strips to empty exactly when every character is whitespace. -/
def is_blank (s : String) : Bool :=
  s.toList.all (fun c => c.isWhitespace)

/-- Python character containment (c in s), over the character list. -/
def contains_char (s : String) (c : Char) : Bool :=
  s.toList.contains c

/-- Number of occurrences of a character in a string (Python str.count for
a single character). -/
def count_char (s : String) (c : Char) : Nat :=
  (s.toList.filter (fun x => x == c)).length

/-- Substring occurrence over character lists: the needle is a prefix of
some suffix of the haystack. -/
def has_sub (sub : List Char) : List Char → Bool
  | [] => sub.isPrefixOf []
  | c :: t => sub.isPrefixOf (c :: t) || has_sub sub t

/-- Python substring containment (sub in s). -/
def contains_sub (s sub : String) : Bool :=
  has_sub sub.toList s.toList

/-- Python str.upper over the character list. -/
def upper_chars (s : String) : List Char :=
  s.toList.map Char.toUpper

/-- The validate_query tool of src/tools/vizgenie_tools.py: structural
validation of a generated query. For prometheus text it flags an empty
query, an opening brace without any closing brace anywhere, and an opening
parenthesis without any closing parenthesis anywhere; for postgres text it
flags an empty query, a missing SELECT (case-insensitive substring), and
an odd number of double-quote characters. Returns the is_valid flag
(errors list empty) together with the errors list. -/
def validate_query (query : String) (query_type : String) : Bool × List String :=
  if query_type == "prometheus" then
    let errors :=
      (if is_blank query then ["Empty PromQL query"] else []) ++
      (if contains_char query lbrace && !(contains_char query rbrace) then
        ["Unmatched braces in PromQL"] else []) ++
      (if contains_char query '(' && !(contains_char query ')') then
        ["Unmatched parentheses in PromQL"] else [])
    (errors.isEmpty, errors)
  else if query_type == "postgres" then
    let errors :=
      (if is_blank query then ["Empty SQL query"] else []) ++
      (if !(has_sub "SELECT".toList (upper_chars query)) then
        ["SQL query must contain SELECT"] else []) ++
      (if count_char query '"' % 2 != 0 then
        ["Unmatched quotes in SQL"] else [])
    (errors.isEmpty, errors)
  else (true, [])

/-- The query context handed to the PromQL generation provider by
generate_query_node. -/
structure PromQLContext where
mk ::
  datasource : String
  original_query : String
  similar_metrics : List String
  labels : List (String × List String)
deriving DecidableEq

/-- The successful payload of the PromQL and SQL generation tools: the
generated query text plus the datasource uid and the echoed user query. -/
structure GenResult where
mk ::
  query : String
  datasource_uid : String
  original_query : String
deriving DecidableEq

/-- One entry of the query_responses list generate_dashboard_node builds
from the valid generated queries. -/
structure QueryResponse where
mk ::
  mandatory_datasource_uuid : String
  userquery : String
  query : String
deriving DecidableEq

/-- The full dashboard document deploy_dashboard_node reconstructs before
calling the deploy tool. -/
structure DashboardDoc where
mk ::
  title : String
  uid : String
  panels : List Panel
  schemaVersion : Nat
deriving DecidableEq

/-- The external capability providers consumed through the tool wrappers
of src/tools/vizgenie_tools.py, plus the clock (datetime.now) and the
postgres schema context (PostgresHandler.get_schema_context). The two
generation providers additionally take the number of earlier
generate_query_node executions, modelling a provider whose answers may
differ between retry attempts. -/
structure Providers where
mk ::
  extract_metrics : String → String → Except String (List String × List String)
  search_similar_metrics : List String → String → Nat → Except String (List String)
  fetch_metric_labels : String → List String → Except String (List (String × List String))
  generate_promql : Nat → PromQLContext → Except String GenResult
  generate_sql : Nat → String → String → String → Except String GenResult
  schema_context : String
  generate_dashboard : List QueryResponse → Except String DashboardJson
  deploy_dashboard : DashboardDoc → Except String DeployResult
  now : String

/-- initialize_node of src/agents/vizgenie_agents.py: resets the counters
and stamps start_time. The empty lists it returns for the three
operator.add channels append nothing under the reducer. -/
def initialize_node (P : Providers) (_s : VizGenieState) : StateUpdate :=
  { emptyUpdate with
    current_stage := some ProcessingStage.INITIALIZED
    current_query_index := some 0
    retry_count := some 0
    max_retries := some 3
    start_time := some P.now }

/-- The exact-name datasource lookup of extract_intent_node (next with a
name-equality generator expression). -/
def find_datasource (dss : List Datasource) (name : String) : Option Datasource :=
  dss.find? (fun d => d.name == name)

/-- The per-query enrichment of extract_intent_node: copy uid, declared
type (defaulting to the name) and classify PROMETHEUS exactly when the
datasource NAME equals the string prometheus, POSTGRES otherwise. -/
def classify_query (ds : Datasource) (q : QueryContext) : QueryContext :=
  { q with
    datasource_uid := ds.uid
    datasource_type := ds.dstype.getD ds.name
    query_type := if ds.name == "prometheus" then QueryType.PROMETHEUS
      else QueryType.POSTGRES }

/-- The classification loop of extract_intent_node: the first query whose
datasource name has no match aborts the whole node with one error
record. -/
def extract_intent_loop (dss : List Datasource) :
    List QueryContext → Except ErrorRecord (List QueryContext)
  | [] => Except.ok []
  | q :: qs =>
    match find_datasource dss q.datasource_name with
    | none => Except.error
        ⟨"intent_extraction",
         "Datasource " ++ q.datasource_name ++ " not found",
         some q.query_text, none⟩
    | some ds => (extract_intent_loop dss qs).map (fun r => classify_query ds q :: r)

/-- extract_intent_node of src/agents/vizgenie_agents.py. On success it
replaces user_queries with the classified sequence; on an unresolved
datasource it returns one error record and stage FAILED. -/
def extract_intent_node (s : VizGenieState) : StateUpdate :=
  match extract_intent_loop s.available_datasources s.user_queries with
  | Except.error e =>
    { emptyUpdate with errors := [e], current_stage := some ProcessingStage.FAILED }
  | Except.ok qs =>
    { emptyUpdate with
      user_queries := some qs
      current_stage := some ProcessingStage.INTENT_EXTRACTED }

/-- The loop of extract_metrics_node: prometheus queries call the
metric-extraction provider (a failure aborts the node), all other queries
get an empty placeholder context; every produced context starts with
empty similar_metrics and metric_labels. -/
def extract_metrics_loop (P : Providers) :
    List QueryContext → Except ErrorRecord (List MetricsContext)
  | [] => Except.ok []
  | q :: qs =>
    if q.query_type = QueryType.PROMETHEUS then
      match P.extract_metrics q.query_text q.datasource_name with
      | Except.error e => Except.error
          ⟨"metrics_extraction", e, some q.query_text, none⟩
      | Except.ok r =>
        (extract_metrics_loop P qs).map (fun rest => ⟨r.1, r.2, [], []⟩ :: rest)
    else
      (extract_metrics_loop P qs).map (fun rest => ⟨[], [], [], []⟩ :: rest)

/-- extract_metrics_node of src/agents/vizgenie_agents.py. -/
def extract_metrics_node (P : Providers) (s : VizGenieState) : StateUpdate :=
  match extract_metrics_loop P s.user_queries with
  | Except.error e =>
    { emptyUpdate with errors := [e], current_stage := some ProcessingStage.FAILED }
  | Except.ok ctxs =>
    { emptyUpdate with
      metrics_contexts := ctxs
      current_stage := some ProcessingStage.METRICS_EXTRACTED }

/-- The loop of vector_search_node: it indexes metrics_contexts with the
position of the query in user_queries (an out-of-range index raises
IndexError, caught by the node-level except), copies the context, and for
prometheus queries enriches the copy with the similarity-search result
and, when that result is non-empty and label discovery succeeds, the
fetched labels (a label-discovery failure is silently ignored). -/
def vector_search_loop (P : Providers) (purl : String) (mcs : List MetricsContext) :
    List QueryContext → Nat → Except ErrorRecord (List MetricsContext)
  | [], _ => Except.ok []
  | q :: qs, idx =>
    match mcs.get? idx with
    | none => Except.error ⟨"vector_search", "IndexError: list index out of range", none, none⟩
    | some mc =>
      if q.query_type = QueryType.PROMETHEUS then
        match P.search_similar_metrics mc.suggested_metrics q.datasource_uid 5 with
        | Except.error e => Except.error ⟨"vector_search", e, some q.query_text, none⟩
        | Except.ok sim =>
          let mc1 := { mc with similar_metrics := sim }
          let mc2 :=
            if sim.isEmpty then mc1
            else match P.fetch_metric_labels purl sim with
              | Except.ok ls => { mc1 with metric_labels := ls }
              | Except.error _ => mc1
          (vector_search_loop P purl mcs qs (idx + 1)).map (fun rest => mc2 :: rest)
      else
        (vector_search_loop P purl mcs qs (idx + 1)).map (fun rest => mc :: rest)

/-- vector_search_node of src/agents/vizgenie_agents.py: re-emits the full
updated context list (which the operator.add reducer appends to the
channel rather than replacing it). -/
def vector_search_node (P : Providers) (s : VizGenieState) : StateUpdate :=
  match vector_search_loop P s.prometheus_url s.metrics_contexts s.user_queries 0 with
  | Except.error e =>
    { emptyUpdate with errors := [e], current_stage := some ProcessingStage.FAILED }
  | Except.ok ctxs =>
    { emptyUpdate with
      metrics_contexts := ctxs
      current_stage := some ProcessingStage.SIMILARITY_SEARCHED }

/-- The loop of generate_query_node: a prometheus query reads
metrics_contexts at the position of the query in user_queries and calls
the PromQL provider with that context; a postgres query calls the SQL
provider with the schema context; a MIXED query matches neither branch and
contributes nothing. The attempt counter t is the number of earlier
generate_query_node executions, handed to the generation providers. -/
def generate_query_loop (P : Providers) (t : Nat) (mcs : List MetricsContext) :
    List QueryContext → Nat → Except ErrorRecord (List GeneratedQuery)
  | [], _ => Except.ok []
  | q :: qs, idx =>
    if q.query_type = QueryType.PROMETHEUS then
      match mcs.get? idx with
      | none => Except.error ⟨"query_generation", "IndexError: list index out of range", none, none⟩
      | some mc =>
        match P.generate_promql t
            ⟨q.datasource_uid, q.query_text, mc.similar_metrics, mc.metric_labels⟩ with
        | Except.error e => Except.error ⟨"query_generation", e, some q.query_text, none⟩
        | Except.ok r =>
          (generate_query_loop P t mcs qs (idx + 1)).map (fun rest =>
            ⟨r.datasource_uid, r.original_query, r.query, "prometheus", false, none⟩ :: rest)
    else if q.query_type = QueryType.POSTGRES then
      match P.generate_sql t q.query_text q.datasource_uid P.schema_context with
      | Except.error e => Except.error ⟨"query_generation", e, some q.query_text, none⟩
      | Except.ok r =>
        (generate_query_loop P t mcs qs (idx + 1)).map (fun rest =>
          ⟨r.datasource_uid, r.original_query, r.query, "postgres", false, none⟩ :: rest)
    else
      generate_query_loop P t mcs qs (idx + 1)

/-- generate_query_node of src/agents/vizgenie_agents.py. -/
def generate_query_node (P : Providers) (t : Nat) (s : VizGenieState) : StateUpdate :=
  match generate_query_loop P t s.metrics_contexts s.user_queries 0 with
  | Except.error e =>
    { emptyUpdate with errors := [e], current_stage := some ProcessingStage.FAILED }
  | Except.ok gqs =>
    { emptyUpdate with
      generated_queries := gqs
      current_stage := some ProcessingStage.QUERY_GENERATED }

/-- The per-entry validation of validate_query_node: run the validate tool
on the generated text and write the is_valid flag and errors back into
the entry. -/
def validate_generated (gqs : List GeneratedQuery) : List GeneratedQuery :=
  gqs.map (fun g =>
    let r := validate_query g.generated_query g.query_type
    { g with is_valid := r.1, validation_errors := some r.2 })

/-- validate_query_node of src/agents/vizgenie_agents.py: if any entry is
invalid and retry_count is below max_retries, it returns the validated
list, an incremented retry_count and an error record, WITHOUT writing
current_stage; otherwise it returns the validated list and stage
QUERY_VALIDATED. -/
def validate_query_node (s : VizGenieState) : StateUpdate :=
  let vq := validate_generated s.generated_queries
  let all_valid := vq.all (fun g => g.is_valid)
  if all_valid = false ∧ s.retry_count < s.max_retries then
    { emptyUpdate with
      generated_queries := vq
      retry_count := some (s.retry_count + 1)
      errors := [⟨"validation", "Query validation failed, retrying",
        none, some (s.retry_count + 1)⟩] }
  else
    { emptyUpdate with
      generated_queries := vq
      current_stage := some ProcessingStage.QUERY_VALIDATED }

/-- The valid-query filter of generate_dashboard_node. -/
def query_responses_of (gqs : List GeneratedQuery) : List QueryResponse :=
  gqs.filterMap (fun g =>
    if g.is_valid then
      some ⟨g.datasource_uid, g.original_query, g.generated_query⟩
    else none)

/-- The duplicate-title removal of generate_dashboard_node: keep a panel
when its title is non-empty and not seen before, in order. -/
def dedupe_panels_aux (seen : List String) : List Panel → List Panel
  | [] => []
  | p :: ps =>
    if p.title != "" && !(seen.contains p.title) then
      p :: dedupe_panels_aux (p.title :: seen) ps
    else
      dedupe_panels_aux seen ps

/-- Duplicate-title removal starting from an empty seen set. -/
def dedupe_panels (ps : List Panel) : List Panel :=
  dedupe_panels_aux [] ps

/-- generate_dashboard_node of src/agents/vizgenie_agents.py: filters to
valid generated queries (hard failure when none remain), calls the
dashboard-synthesis provider, then post-processes the returned panels:
when the panel count differs from the valid-query count it deduplicates
by title and trims to that count, and it always drops panels whose
datasource uid is not among the input uids. -/
def generate_dashboard_node (P : Providers) (s : VizGenieState) : StateUpdate :=
  let query_responses := query_responses_of s.generated_queries
  if query_responses.isEmpty then
    { emptyUpdate with
      errors := [⟨"dashboard_generation", "No valid queries to generate dashboard",
        none, none⟩]
      current_stage := some ProcessingStage.FAILED }
  else
    match P.generate_dashboard query_responses with
    | Except.error e =>
      { emptyUpdate with
        errors := [⟨"dashboard_generation", e, none, none⟩]
        current_stage := some ProcessingStage.FAILED }
    | Except.ok dj =>
      let expected := query_responses.length
      let panels1 :=
        if dj.panels.length ≠ expected then (dedupe_panels dj.panels).take expected
        else dj.panels
      let input_uids := query_responses.map (fun qr => qr.mandatory_datasource_uuid)
      let panels2 := panels1.filter (fun p => input_uids.contains p.datasource_uid)
      { emptyUpdate with
        dashboard_spec := some
          ⟨dj.title.getD "Generated Dashboard", panels2, dj.uid.getD "", none⟩
        current_stage := some ProcessingStage.DASHBOARD_GENERATED }

/-- The dashboard document deploy_dashboard_node reconstructs from the
stored spec (schemaVersion 36). -/
def mkDashboardDoc (spec : DashboardSpec) : DashboardDoc :=
  ⟨spec.title, spec.uid, spec.panels, 36⟩

/-- deploy_dashboard_node of src/agents/vizgenie_agents.py. With no stored
dashboard_spec the subscript on None raises, and the except clause stamps
end_time next to stage FAILED. A provider error result returns stage
FAILED and the error record WITHOUT an end_time key. On success it stores
the deployment result, stage DEPLOYED, end_time, and the spec with the
deployed url filled in. -/
def deploy_dashboard_node (P : Providers) (s : VizGenieState) : StateUpdate :=
  match s.dashboard_spec with
  | none =>
    { emptyUpdate with
      errors := [⟨"deployment", "TypeError: NoneType object is not subscriptable",
        none, none⟩]
      current_stage := some ProcessingStage.FAILED
      end_time := some P.now }
  | some spec =>
    match P.deploy_dashboard (mkDashboardDoc spec) with
    | Except.error e =>
      { emptyUpdate with
        errors := [⟨"deployment", e, none, none⟩]
        current_stage := some ProcessingStage.FAILED }
    | Except.ok r =>
      { emptyUpdate with
        deployment_result := some r
        current_stage := some ProcessingStage.DEPLOYED
        end_time := some P.now
        dashboard_spec := some { spec with deployed_url := some r.url } }

/-- error_handler_node of src/agents/vizgenie_agents.py: both branches
(errors present or not) set stage FAILED and stamp end_time; the branches
differ only in what they log. -/
def error_handler_node (P : Providers) (_s : VizGenieState) : StateUpdate :=
  { emptyUpdate with
    current_stage := some ProcessingStage.FAILED
    end_time := some P.now }

/-- One engine tick for initialize: handler then reducer merge. -/
def initialize_step (P : Providers) (s : VizGenieState) : VizGenieState :=
  applyUpdate s (initialize_node P s)

/-- One engine tick for extract_intent: handler then reducer merge. -/
def extract_intent_step (s : VizGenieState) : VizGenieState :=
  applyUpdate s (extract_intent_node s)

/-- One engine tick for extract_metrics: handler then reducer merge. -/
def extract_metrics_step (P : Providers) (s : VizGenieState) : VizGenieState :=
  applyUpdate s (extract_metrics_node P s)

/-- One engine tick for vector_search: handler then reducer merge (the
handler copies each context before editing, so the channel entries it read
are untouched and the reducer appends the re-emitted list after them). -/
def vector_search_step (P : Providers) (s : VizGenieState) : VizGenieState :=
  applyUpdate s (vector_search_node P s)

/-- One engine tick for generate_query: handler then reducer merge. -/
def generate_query_step (P : Providers) (t : Nat) (s : VizGenieState) : VizGenieState :=
  applyUpdate s (generate_query_node P t s)

/-- One engine tick for validate_query. The Python handler mutates the
GeneratedQuery dicts it reads from the channel in place before the reducer
appends the re-emitted list, so the pre-existing channel entries carry the
written validation flags too; the merge therefore applies the update to
the state whose generated_queries are already validated. -/
def validate_query_step (s : VizGenieState) : VizGenieState :=
  applyUpdate { s with generated_queries := validate_generated s.generated_queries }
    (validate_query_node s)

/-- One engine tick for generate_dashboard: handler then reducer merge. -/
def generate_dashboard_step (P : Providers) (s : VizGenieState) : VizGenieState :=
  applyUpdate s (generate_dashboard_node P s)

/-- One engine tick for deploy_dashboard: handler then reducer merge. -/
def deploy_dashboard_step (P : Providers) (s : VizGenieState) : VizGenieState :=
  applyUpdate s (deploy_dashboard_node P s)

/-- One engine tick for error_handler: handler then reducer merge. -/
def error_handler_step (P : Providers) (s : VizGenieState) : VizGenieState :=
  applyUpdate s (error_handler_node P s)

/-- The nodes of the stage graph built in create_graph of
src/agents/workflow.py, plus the END sentinel. -/
inductive Node where
| entry_node
| extract_intent
| extract_metrics
| vector_search
| generate_query
| validate_query
| generate_dashboard
| deploy_dashboard
| error_handler
| finished
deriving DecidableEq

/-- route_after_intent of src/agents/workflow.py. -/
def route_after_intent (s : VizGenieState) : Node :=
  if s.current_stage = ProcessingStage.FAILED then Node.error_handler
  else Node.extract_metrics

/-- route_after_generation of src/agents/workflow.py. -/
def route_after_generation (s : VizGenieState) : Node :=
  if s.current_stage = ProcessingStage.FAILED then Node.error_handler
  else Node.validate_query

/-- route_after_validation of src/agents/workflow.py: on stage FAILED with
retry budget left and at least one invalid generated query it retries at
generate_query, on stage FAILED otherwise it goes to the error handler,
and on any other stage it goes to generate_dashboard. -/
def route_after_validation (s : VizGenieState) : Node :=
  if s.current_stage = ProcessingStage.FAILED then
    if s.retry_count < s.max_retries then
      if (s.generated_queries.filter (fun q => !q.is_valid)).isEmpty then
        Node.error_handler
      else Node.generate_query
    else Node.error_handler
  else Node.generate_dashboard

/-- route_after_dashboard_generation of src/agents/workflow.py. -/
def route_after_dashboard (s : VizGenieState) : Node :=
  if s.current_stage = ProcessingStage.FAILED then Node.error_handler
  else Node.deploy_dashboard

/-- One transition of the compiled graph: run the node handler, merge its
update, and follow the fixed edge or conditional router of create_graph.
The Nat component counts completed generate_query executions and feeds the
attempt-indexed generation providers. -/
def stepWorkflow (P : Providers) :
    Node → VizGenieState → Nat → Node × VizGenieState × Nat
  | Node.entry_node, s, t => (Node.extract_intent, initialize_step P s, t)
  | Node.extract_intent, s, t =>
    let s2 := extract_intent_step s
    (route_after_intent s2, s2, t)
  | Node.extract_metrics, s, t => (Node.vector_search, extract_metrics_step P s, t)
  | Node.vector_search, s, t => (Node.generate_query, vector_search_step P s, t)
  | Node.generate_query, s, t =>
    let s2 := generate_query_step P t s
    (route_after_generation s2, s2, t + 1)
  | Node.validate_query, s, t =>
    let s2 := validate_query_step s
    (route_after_validation s2, s2, t)
  | Node.generate_dashboard, s, t =>
    let s2 := generate_dashboard_step P s
    (route_after_dashboard s2, s2, t)
  | Node.deploy_dashboard, s, t => (Node.finished, deploy_dashboard_step P s, t)
  | Node.error_handler, s, t => (Node.finished, error_handler_step P s, t)
  | Node.finished, s, t => (Node.finished, s, t)

/-- Drive the graph for at most the given number of ticks, stopping at the
END sentinel; returns the final state and the generate_query execution
count. -/
def runWorkflow (P : Providers) :
    Nat → Node → VizGenieState → Nat → VizGenieState × Nat
  | 0, _, s, t => (s, t)
  | fuel + 1, n, s, t =>
    match n with
    | Node.finished => (s, t)
    | _ =>
      let r := stepWorkflow P n s t
      runWorkflow P fuel r.1 r.2.1 r.2.2

/-- A fresh initial state as src/main.py builds it before invoking the
graph: the caller supplies the queries and the datasource catalog, every
derived collection starts empty. -/
def mkState (qs : List QueryContext) (dss : List Datasource) : VizGenieState :=
  { user_queries := qs
    prometheus_url := "http-prometheus"
    postgres_url := "http-postgres"
    available_datasources := dss
    current_stage := ProcessingStage.INITIALIZED
    current_query_index := 0
    metrics_contexts := []
    generated_queries := []
    dashboard_spec := none
    deployment_result := none
    errors := []
    retry_count := 0
    max_retries := 3
    start_time := none
    end_time := none }

/-- A deterministic provider family for concrete runs, parameterised by
the PromQL generation oracle. -/
def testProviders (gen : Nat → PromQLContext → Except String GenResult) : Providers :=
  { extract_metrics := fun _ _ => Except.ok (["cpu_usage"], ["pod"])
    search_similar_metrics := fun _ _ _ => Except.ok ["cpu_usage_total"]
    fetch_metric_labels := fun _ _ => Except.ok [("cpu_usage_total", ["pod", "node"])]
    generate_promql := gen
    generate_sql := fun _ q uid _ => Except.ok ⟨"SELECT 1", uid, q⟩
    schema_context := "tables"
    generate_dashboard := fun qrs => Except.ok
      ⟨some "Dash", some "d1", qrs.map (fun qr => ⟨qr.userquery, qr.mandatory_datasource_uuid⟩)⟩
    deploy_dashboard := fun _ => Except.ok ⟨"http-grafana-d1", "d1"⟩
    now := "T0" }

/-- The prometheus datasource of the concrete runs. -/
def ds_prom : Datasource := ⟨"prometheus", "p1", some "prometheus"⟩

/-- A metric query targeting the prometheus datasource, as the caller
submits it (uid, type and kind still unresolved). -/
def q_prom : QueryContext := ⟨"cpu usage", "prometheus", "", "", QueryType.MIXED⟩

/-- A metric-query text whose braces are mismatched yet both present:
closing brace followed by opening brace. -/
def promql_mismatched : String := "\x7d\x7b"

/-- Claim C5, counterexample: the claim says a metric-query text with
mismatched-but-present delimiters such as the two-character string of a
closing brace followed by an opening brace is classified invalid; the
validate tool classifies exactly that text as valid with no errors,
because it only checks that some closing delimiter exists whenever some
opening delimiter does. -/
theorem validate_mismatched_braces_accepted :
    validate_query promql_mismatched "prometheus" = (true, []) := by decide

/-- Claim C5 (amended): ValidateQuery marks a metric-query (prometheus)
text valid exactly when it is non-empty after trimming and does not
contain an opening brace without any closing brace nor an opening
parenthesis without any closing parenthesis (mere presence of the closing
delimiter suffices; balance is not checked); it marks a relational-query
(postgres) text valid exactly when it is non-empty after trimming,
contains SELECT case-insensitively, and has an even number of
double-quote characters. -/
theorem validate_query_characterisation (q : String) :
    (validate_query q "prometheus").1 =
      (!(is_blank q) && !(contains_char q lbrace && !(contains_char q rbrace)) &&
        !(contains_char q '(' && !(contains_char q ')'))) ∧
    (validate_query q "postgres").1 =
      (!(is_blank q) && has_sub "SELECT".toList (upper_chars q) &&
        !(count_char q '"' % 2 != 0)) := by
  cases h1 : is_blank q <;>
    cases h2 : contains_char q lbrace <;>
    cases h3 : contains_char q rbrace <;>
    cases h4 : contains_char q '(' <;>
    cases h5 : contains_char q ')' <;>
    cases h6 : has_sub "SELECT".toList (upper_chars q) <;>
    cases h7 : count_char q '"' % 2 != 0 <;>
    simp [validate_query, h1, h2, h3, h4, h5, h6, h7] <;>
    simp_all

/-- Claim C8: route_after_validation selects the retry target
generate_query exactly when the stage is FAILED, the retry count is below
max_retries and some generated query is invalid; it selects error_handler
exactly when the stage is FAILED otherwise; and it selects
generate_dashboard exactly when the stage is not FAILED. -/
theorem route_after_validation_cases (s : VizGenieState) :
    (route_after_validation s = Node.generate_query ↔
      (s.current_stage = ProcessingStage.FAILED ∧
        s.retry_count < s.max_retries ∧
        ∃ g ∈ s.generated_queries, g.is_valid = false)) ∧
    (route_after_validation s = Node.error_handler ↔
      (s.current_stage = ProcessingStage.FAILED ∧
        ¬(s.retry_count < s.max_retries ∧
          ∃ g ∈ s.generated_queries, g.is_valid = false))) ∧
    (route_after_validation s = Node.generate_dashboard ↔
      s.current_stage ≠ ProcessingStage.FAILED) := by
  by_cases hf : s.current_stage = ProcessingStage.FAILED <;>
    by_cases hr : s.retry_count < s.max_retries <;>
    by_cases hi : (s.generated_queries.filter (fun q => !q.is_valid)).isEmpty = true <;>
    simp only [route_after_validation, hf, hr, hi, if_true, if_false,
      ite_true, ite_false, if_pos, if_neg, not_false_iff] <;>
    simp_all [List.isEmpty_iff, List.filter_eq_nil_iff]

/-- The PromQL generation oracle of the retry scenario: the generated text
of the first two attempts is a lone opening parenthesis (structurally
invalid), any later attempt generates the metric name up (valid). -/
def genC2 : Nat → PromQLContext → Except String GenResult :=
  fun t _ => if t < 2 then Except.ok ⟨"(", "p1", "cpu usage"⟩
    else Except.ok ⟨"up", "p1", "cpu usage"⟩

/-- Claim C2, evaluated at the spec scenario (one query, invalid on the
first two generation attempts, valid on the third, max_retries 3): the
run does NOT reach QUERY_VALIDATED with retry_count 2. After the first
failed validation the handler increments retry_count but leaves
current_stage at QUERY_GENERATED, so route_after_validation (which
retries only on stage FAILED) sends the run to generate_dashboard, which
fails for lack of valid queries; the run terminates at stage FAILED with
retry_count 1 and the generation provider was invoked exactly once. -/
theorem retry_scenario_never_retries :
    (runWorkflow (testProviders genC2) 20 Node.entry_node
        (mkState [q_prom] [ds_prom]) 0).1.current_stage = ProcessingStage.FAILED ∧
    (runWorkflow (testProviders genC2) 20 Node.entry_node
        (mkState [q_prom] [ds_prom]) 0).1.retry_count = 1 ∧
    (runWorkflow (testProviders genC2) 20 Node.entry_node
        (mkState [q_prom] [ds_prom]) 0).2 = 1 := by
  decide

/-- The full run on a two-query initial state, as main.py drives it. -/
def run_two_query (P : Providers) (dss : List Datasource) (q1 q2 : QueryContext) :
    VizGenieState × Nat :=
  runWorkflow P 20 Node.entry_node (mkState [q1, q2] dss) 0

/-- Claim C7: in a run with two queries where the first resolves in the
catalog and the second does not, the run terminates at stage FAILED with
exactly the one unresolved-datasource error for that query, retry_count
still zero, and generate_query never executed. -/
theorem unresolved_datasource_hard_failure (P : Providers) (dss : List Datasource)
    (q1 q2 : QueryContext) (d1 : Datasource)
    (h1 : find_datasource dss q1.datasource_name = some d1)
    (h2 : find_datasource dss q2.datasource_name = none) :
    (run_two_query P dss q1 q2).1.current_stage = ProcessingStage.FAILED ∧
    (run_two_query P dss q1 q2).1.errors =
      [⟨"intent_extraction", "Datasource " ++ q2.datasource_name ++ " not found",
        some q2.query_text, none⟩] ∧
    (run_two_query P dss q1 q2).1.retry_count = 0 ∧
    (run_two_query P dss q1 q2).2 = 0 := by
  have h3 : extract_intent_loop dss [q1, q2] = Except.error
      ⟨"intent_extraction", "Datasource " ++ q2.datasource_name ++ " not found",
        some q2.query_text, none⟩ := by
    simp [extract_intent_loop, h1, h2, Except.map]
  simp [run_two_query, runWorkflow, stepWorkflow, initialize_step, initialize_node,
    extract_intent_step, extract_intent_node, applyUpdate, emptyUpdate, mkState, h3,
    route_after_intent, error_handler_step, error_handler_node]

/-- The datasource of the concrete unresolved-datasource run. -/
def q_missing : QueryContext := ⟨"db rows", "missing-ds", "", "", QueryType.MIXED⟩

/-- Claim C7, witness: the concrete two-query run with the second query
naming a datasource absent from the catalog. -/
theorem unresolved_datasource_hard_failure_witness :
    (run_two_query (testProviders genC2) [ds_prom] q_prom q_missing).1.current_stage
      = ProcessingStage.FAILED ∧
    (run_two_query (testProviders genC2) [ds_prom] q_prom q_missing).1.errors =
      [⟨"intent_extraction", "Datasource missing-ds not found", some "db rows", none⟩] ∧
    (run_two_query (testProviders genC2) [ds_prom] q_prom q_missing).1.retry_count = 0 ∧
    (run_two_query (testProviders genC2) [ds_prom] q_prom q_missing).2 = 0 :=
  unresolved_datasource_hard_failure (testProviders genC2) [ds_prom] q_prom q_missing
    ds_prom (by decide) (by decide)

/-- The PromQL generation oracle that always generates the valid metric
name up. -/
def okGen : Nat → PromQLContext → Except String GenResult :=
  fun _ _ => Except.ok ⟨"up", "p1", "cpu usage"⟩

/-- Auxiliary: the vector-search loop, when it succeeds, produces exactly
one context per query. -/
theorem vector_search_loop_length (P : Providers) (purl : String)
    (mcs : List MetricsContext) (qs : List QueryContext) :
    ∀ (idx : Nat) (r : List MetricsContext),
      vector_search_loop P purl mcs qs idx = Except.ok r → r.length = qs.length := by
  induction qs with
  | nil =>
    intro idx r h
    simp only [vector_search_loop, Except.ok.injEq] at h
    subst h
    rfl
  | cons q qs ih =>
    intro idx r h
    simp only [vector_search_loop] at h
    cases hget : mcs.get? idx with
    | none => simp only [hget] at h; exact Except.noConfusion h
    | some mc =>
      simp only [hget] at h
      by_cases hq : q.query_type = QueryType.PROMETHEUS
      · simp only [if_pos hq] at h
        cases hs : P.search_similar_metrics mc.suggested_metrics q.datasource_uid 5 with
        | error e => simp only [hs] at h; exact Except.noConfusion h
        | ok sim =>
          simp only [hs] at h
          cases hl : vector_search_loop P purl mcs qs (idx + 1) with
          | error e => simp only [hl, Except.map] at h; exact Except.noConfusion h
          | ok rest =>
            simp only [hl, Except.map, Except.ok.injEq] at h
            subst h
            simp [ih (idx + 1) rest hl]
      · simp only [if_neg hq] at h
        cases hl : vector_search_loop P purl mcs qs (idx + 1) with
        | error e => simp only [hl, Except.map] at h; exact Except.noConfusion h
        | ok rest =>
          simp only [hl, Except.map, Except.ok.injEq] at h
          subst h
          simp [ih (idx + 1) rest hl]

/-- Claim C1 (amended): the index-alignment equality holds at
METRICS_EXTRACTED, but VectorSearch re-emits the full context list into an
operator.add channel, so the merge appends rather than replaces: whenever
the vector-search tick succeeds on a state whose metrics_contexts are
index-aligned with user_queries, the merged state at SIMILARITY_SEARCHED
holds twice as many contexts as there are queries (the first half from
ExtractMetrics, the second half re-emitted by VectorSearch). -/
theorem metrics_contexts_doubled (P : Providers) (s : VizGenieState)
    (hlen : s.metrics_contexts.length = s.user_queries.length)
    (hok : (vector_search_step P s).current_stage = ProcessingStage.SIMILARITY_SEARCHED) :
    (vector_search_step P s).metrics_contexts.length = 2 * s.user_queries.length := by
  unfold vector_search_step vector_search_node at hok ⊢
  cases hl : vector_search_loop P s.prometheus_url s.metrics_contexts s.user_queries 0 with
  | error e =>
    rw [hl] at hok
    simp [applyUpdate, emptyUpdate] at hok
  | ok ctxs =>
    have hc := vector_search_loop_length P s.prometheus_url s.metrics_contexts
      s.user_queries 0 ctxs hl
    simp [applyUpdate, emptyUpdate]
    omega

/-- The merged state right after the ExtractMetrics tick of the concrete
one-query run. -/
def state_metrics_extracted : VizGenieState :=
  extract_metrics_step (testProviders okGen)
    (extract_intent_step
      (initialize_step (testProviders okGen) (mkState [q_prom] [ds_prom])))

/-- Claim C1, counterexample: in the concrete one-query run the merged
state after the VectorSearch tick is at stage SIMILARITY_SEARCHED with one
user query but two metrics_contexts entries, so the claimed equality of
lengths fails at a stage later than METRICS_EXTRACTED and the re-emitted
list extended rather than replaced the channel. -/
theorem metrics_contexts_not_index_aligned :
    (vector_search_step (testProviders okGen) state_metrics_extracted).current_stage
      = ProcessingStage.SIMILARITY_SEARCHED ∧
    (vector_search_step (testProviders okGen) state_metrics_extracted).user_queries.length = 1 ∧
    (vector_search_step (testProviders okGen) state_metrics_extracted).metrics_contexts.length = 2 := by
  decide

/-- Claim C1, witness: the amended doubling applied to the concrete state
reached after ExtractMetrics. -/
theorem metrics_contexts_doubled_witness :
    (vector_search_step (testProviders okGen) state_metrics_extracted).metrics_contexts.length
      = 2 * state_metrics_extracted.user_queries.length :=
  metrics_contexts_doubled (testProviders okGen) state_metrics_extracted
    (by decide) (by decide)

/-- A datasource whose declared type key says prometheus but whose name is
not the literal string prometheus. -/
def ds_typed_prom : Datasource := ⟨"grafana-prom", "u9", some "prometheus"⟩

/-- A query targeting the datasource named grafana-prom. -/
def q_typed : QueryContext := ⟨"cpu", "grafana-prom", "", "", QueryType.MIXED⟩

/-- Claim C3, counterexample: a resolved datasource whose declared kind is
prometheus but whose name is grafana-prom is classified POSTGRES by
ExtractIntent (its datasource_type is even copied as prometheus into the
same query), so the classification is not a function of the declared
kind. -/
theorem classification_ignores_declared_kind :
    ds_typed_prom.dstype = some "prometheus" ∧
    (extract_intent_step (mkState [q_typed] [ds_typed_prom])).current_stage
      = ProcessingStage.INTENT_EXTRACTED ∧
    (extract_intent_step (mkState [q_typed] [ds_typed_prom])).user_queries =
      [⟨"cpu", "grafana-prom", "u9", "prometheus", QueryType.POSTGRES⟩] := by
  decide

/-- Auxiliary: what the classification loop does entry by entry. -/
theorem extract_intent_loop_classifies (dss : List Datasource) :
    ∀ (qs qs2 : List QueryContext), extract_intent_loop dss qs = Except.ok qs2 →
      List.Forall₂ (fun q q2 => ∃ ds,
        find_datasource dss q.datasource_name = some ds ∧
        q2 = classify_query ds q ∧
        (q2.query_type = QueryType.PROMETHEUS ↔ ds.name = "prometheus") ∧
        (q2.query_type = QueryType.POSTGRES ↔ ds.name ≠ "prometheus")) qs qs2 := by
  intro qs
  induction qs with
  | nil =>
    intro qs2 h
    simp only [extract_intent_loop, Except.ok.injEq] at h
    subst h
    exact List.Forall₂.nil
  | cons q qs ih =>
    intro qs2 h
    simp only [extract_intent_loop] at h
    cases hf : find_datasource dss q.datasource_name with
    | none => simp only [hf] at h; exact Except.noConfusion h
    | some ds =>
      simp only [hf] at h
      cases hl : extract_intent_loop dss qs with
      | error e => simp only [hl, Except.map] at h; exact Except.noConfusion h
      | ok rest =>
        simp only [hl, Except.map, Except.ok.injEq] at h
        subst h
        refine List.Forall₂.cons ⟨ds, hf, rfl, ?_, ?_⟩ (ih rest hl)
        · by_cases hn : ds.name = "prometheus" <;> simp [classify_query, hn]
        · by_cases hn : ds.name = "prometheus" <;> simp [classify_query, hn]

/-- Claim C3 (amended): whenever ExtractIntent succeeds, each classified
query is assigned PROMETHEUS exactly when its resolved datasource is NAMED
prometheus, and POSTGRES exactly otherwise — the classification is a
function of the datasource name, not of its declared kind. -/
theorem classification_by_name (s : VizGenieState)
    (h : (extract_intent_step s).current_stage = ProcessingStage.INTENT_EXTRACTED) :
    List.Forall₂ (fun q q2 => ∃ ds,
      find_datasource s.available_datasources q.datasource_name = some ds ∧
      q2 = classify_query ds q ∧
      (q2.query_type = QueryType.PROMETHEUS ↔ ds.name = "prometheus") ∧
      (q2.query_type = QueryType.POSTGRES ↔ ds.name ≠ "prometheus"))
      s.user_queries (extract_intent_step s).user_queries := by
  unfold extract_intent_step extract_intent_node at h ⊢
  cases hl : extract_intent_loop s.available_datasources s.user_queries with
  | error e =>
    rw [hl] at h
    simp [applyUpdate, emptyUpdate] at h
  | ok qs2 =>
    simp only [applyUpdate, emptyUpdate, Option.getD]
    exact extract_intent_loop_classifies s.available_datasources s.user_queries qs2 hl

/-- Claim C3, witness: the amended classification applied to the concrete
state whose single query resolves to the datasource named grafana-prom
with declared kind prometheus. -/
theorem classification_by_name_witness :
    List.Forall₂ (fun q q2 => ∃ ds,
      find_datasource (mkState [q_typed] [ds_typed_prom]).available_datasources
        q.datasource_name = some ds ∧
      q2 = classify_query ds q ∧
      (q2.query_type = QueryType.PROMETHEUS ↔ ds.name = "prometheus") ∧
      (q2.query_type = QueryType.POSTGRES ↔ ds.name ≠ "prometheus"))
      (mkState [q_typed] [ds_typed_prom]).user_queries
      (extract_intent_step (mkState [q_typed] [ds_typed_prom])).user_queries :=
  classification_by_name (mkState [q_typed] [ds_typed_prom]) (by decide)

/-- Claim C6 (amended): DeployDashboard stamps end_time on success and on
the internal-exception path (missing dashboard_spec), but on a
provider-returned error it sets stage FAILED WITHOUT stamping end_time
(the deploy node has no outgoing edge to the error handler, so nothing
stamps it later); on success it sets stage DEPLOYED, stamps end_time,
stores the deployment result and writes the returned url into the
dashboard spec. -/
theorem deploy_terminal_stamping (P : Providers) (s : VizGenieState) :
    (s.dashboard_spec = none →
      (deploy_dashboard_step P s).current_stage = ProcessingStage.FAILED ∧
      (deploy_dashboard_step P s).end_time = some P.now) ∧
    (∀ spec e, s.dashboard_spec = some spec →
      P.deploy_dashboard (mkDashboardDoc spec) = Except.error e →
      (deploy_dashboard_step P s).current_stage = ProcessingStage.FAILED ∧
      (deploy_dashboard_step P s).end_time = s.end_time) ∧
    (∀ spec r, s.dashboard_spec = some spec →
      P.deploy_dashboard (mkDashboardDoc spec) = Except.ok r →
      (deploy_dashboard_step P s).current_stage = ProcessingStage.DEPLOYED ∧
      (deploy_dashboard_step P s).end_time = some P.now ∧
      (deploy_dashboard_step P s).deployment_result = some r ∧
      (deploy_dashboard_step P s).dashboard_spec =
        some { spec with deployed_url := some r.url }) := by
  refine ⟨fun hn => ?_, fun spec e hs he => ?_, fun spec r hs hr => ?_⟩
  · simp [deploy_dashboard_step, deploy_dashboard_node, applyUpdate, emptyUpdate, hn]
  · simp [deploy_dashboard_step, deploy_dashboard_node, applyUpdate, emptyUpdate, hs, he]
  · simp [deploy_dashboard_step, deploy_dashboard_node, applyUpdate, emptyUpdate, hs, hr]

/-- Providers whose deployment call returns an error result. -/
def deployFailProviders : Providers :=
  { testProviders okGen with deploy_dashboard := fun _ => Except.error "connection refused" }

/-- A generated dashboard spec awaiting deployment. -/
def spec_pre : DashboardSpec := ⟨"Dash", [], "d1", none⟩

/-- A state entering the deploy stage with no end_time stamped yet. -/
def state_predeploy : VizGenieState :=
  { mkState [] [] with
    dashboard_spec := some spec_pre
    current_stage := ProcessingStage.DASHBOARD_GENERATED }

/-- Claim C6, counterexample: when the deployment provider returns an
error result, the resulting state has stage FAILED but end_time is NOT
stamped, contradicting the claim that every failure of the deploy stage
stamps end_time. -/
theorem deploy_provider_error_unstamped :
    (deploy_dashboard_step deployFailProviders state_predeploy).current_stage
      = ProcessingStage.FAILED ∧
    (deploy_dashboard_step deployFailProviders state_predeploy).end_time = none := by
  decide

/-- Auxiliary: duplicate-title removal only keeps panels of the input
list. -/
theorem mem_of_mem_dedupe (p : Panel) :
    ∀ (ps : List Panel) (seen : List String),
      p ∈ dedupe_panels_aux seen ps → p ∈ ps := by
  intro ps
  induction ps with
  | nil =>
    intro seen h
    simp [dedupe_panels_aux] at h
  | cons a ps ih =>
    intro seen h
    simp only [dedupe_panels_aux] at h
    by_cases hc : (a.title != "" && !(seen.contains a.title)) = true
    · rw [if_pos hc] at h
      rcases List.mem_cons.mp h with h1 | h2
      · exact List.mem_cons.mpr (Or.inl h1)
      · exact List.mem_cons_of_mem a (ih (a.title :: seen) h2)
    · rw [if_neg hc] at h
      exact List.mem_cons_of_mem a (ih seen h)

/-- Claim C4: when the dashboard-synthesis provider returns more panels
than there are valid input queries, with every returned panel titled,
enough distinct titles to cover the valid-query count, and every returned
panel referencing an input datasource uid, GenerateDashboard yields a
dashboard_spec whose panel list is the title-deduplicated list trimmed to
the valid-query count — dedup before trim — and has exactly that many
panels. -/
theorem panel_count_correction (P : Providers) (s : VizGenieState) (dj : DashboardJson)
    (hok : P.generate_dashboard (query_responses_of s.generated_queries) = Except.ok dj)
    (hne : query_responses_of s.generated_queries ≠ [])
    (hmore : (query_responses_of s.generated_queries).length < dj.panels.length)
    (hdup : (query_responses_of s.generated_queries).length ≤ (dedupe_panels dj.panels).length)
    (hds : ∀ p ∈ dj.panels,
      ((query_responses_of s.generated_queries).map
        (fun qr => qr.mandatory_datasource_uuid)).contains p.datasource_uid = true) :
    (generate_dashboard_step P s).current_stage = ProcessingStage.DASHBOARD_GENERATED ∧
    (generate_dashboard_step P s).dashboard_spec = some
      ⟨dj.title.getD "Generated Dashboard",
       (dedupe_panels dj.panels).take (query_responses_of s.generated_queries).length,
       dj.uid.getD "", none⟩ ∧
    ((dedupe_panels dj.panels).take
      (query_responses_of s.generated_queries).length).length =
      (query_responses_of s.generated_queries).length := by
  have hx : (query_responses_of s.generated_queries).isEmpty = false := by
    cases hqq : query_responses_of s.generated_queries with
    | nil => exact absurd hqq hne
    | cons a l => rfl
  have hflt : ((dedupe_panels dj.panels).take
        (query_responses_of s.generated_queries).length).filter
      (fun p => ((query_responses_of s.generated_queries).map
        (fun qr => qr.mandatory_datasource_uuid)).contains p.datasource_uid) =
      (dedupe_panels dj.panels).take (query_responses_of s.generated_queries).length := by
    apply List.filter_eq_self.mpr
    intro p hp
    have hp2 : p ∈ dedupe_panels dj.panels := List.take_subset _ _ hp
    have hp3 : p ∈ dj.panels := mem_of_mem_dedupe p dj.panels [] hp2
    exact hds p hp3
  have hlen2 : ((dedupe_panels dj.panels).take
      (query_responses_of s.generated_queries).length).length =
      (query_responses_of s.generated_queries).length := by
    rw [List.length_take]
    omega
  have hne2 : dj.panels.length ≠ (query_responses_of s.generated_queries).length :=
    Nat.ne_of_gt hmore
  refine ⟨?_, ?_, hlen2⟩ <;>
    simp [generate_dashboard_step, generate_dashboard_node, applyUpdate, emptyUpdate,
      hx, hok, hne2, hflt]
  intro p hp
  have h3 := hds p (mem_of_mem_dedupe p dj.panels [] (List.take_subset _ _ hp))
  simpa using h3

/-- Three valid generated queries, ready for dashboard synthesis. -/
def state_three_valid : VizGenieState :=
  { mkState [] [] with
    current_stage := ProcessingStage.QUERY_VALIDATED
    generated_queries :=
      [⟨"u1", "q one", "up", "prometheus", true, some []⟩,
       ⟨"u2", "q two", "up", "prometheus", true, some []⟩,
       ⟨"u3", "q three", "up", "prometheus", true, some []⟩] }

/-- Five panels for three queries, one title duplicated, every panel
titled and referencing an input datasource uid. -/
def dj_five_panels : DashboardJson :=
  ⟨some "Overview", some "d9",
   [⟨"A", "u1"⟩, ⟨"B", "u2"⟩, ⟨"A", "u3"⟩, ⟨"C", "u1"⟩, ⟨"D", "u2"⟩]⟩

/-- Providers whose dashboard synthesis over-produces the five panels. -/
def overProviders : Providers :=
  { testProviders okGen with generate_dashboard := fun _ => Except.ok dj_five_panels }

/-- Claim C4, witness: five provider panels for three valid queries with
one duplicate title collapse to exactly three panels, deduplicated before
trimming. -/
theorem panel_count_correction_witness :
    (generate_dashboard_step overProviders state_three_valid).current_stage
      = ProcessingStage.DASHBOARD_GENERATED ∧
    (generate_dashboard_step overProviders state_three_valid).dashboard_spec = some
      ⟨dj_five_panels.title.getD "Generated Dashboard",
       (dedupe_panels dj_five_panels.panels).take
         (query_responses_of state_three_valid.generated_queries).length,
       dj_five_panels.uid.getD "", none⟩ ∧
    ((dedupe_panels dj_five_panels.panels).take
      (query_responses_of state_three_valid.generated_queries).length).length =
      (query_responses_of state_three_valid.generated_queries).length :=
  panel_count_correction overProviders state_three_valid dj_five_panels
    (by rfl) (by decide) (by decide) (by decide) (by decide)

/-- Claim C9: for a state whose generated queries all validate, the
ValidateQuery tick leaves the merged channel holding the validated list
twice (the in-place-validated entries followed by the re-emitted list
appended by the operator.add reducer): stage QUERY_VALIDATED, twice as
many entries as before, and every one of them counted as valid, so the
valid-query count every later stage observes is doubled. -/
theorem generated_queries_duplicated (s : VizGenieState)
    (h : ∀ g ∈ validate_generated s.generated_queries, g.is_valid = true) :
    (validate_query_step s).generated_queries =
      validate_generated s.generated_queries ++ validate_generated s.generated_queries ∧
    (validate_query_step s).generated_queries.length = 2 * s.generated_queries.length ∧
    (validate_query_step s).current_stage = ProcessingStage.QUERY_VALIDATED ∧
    ((validate_query_step s).generated_queries.filter (fun g => g.is_valid)).length
      = 2 * s.generated_queries.length := by
  have hall : (validate_generated s.generated_queries).all (fun g => g.is_valid) = true :=
    List.all_eq_true.mpr (fun g hg => h g hg)
  have hfe : (validate_generated s.generated_queries).filter (fun g => g.is_valid)
      = validate_generated s.generated_queries :=
    List.filter_eq_self.mpr (fun g hg => h g hg)
  have hvl : (validate_generated s.generated_queries).length = s.generated_queries.length :=
    List.length_map _ _
  refine ⟨?_, ?_, ?_, ?_⟩ <;>
    simp [validate_query_step, validate_query_node, applyUpdate, emptyUpdate, hall,
      List.filter_append, hfe, hvl] <;>
    omega

/-- A state at QUERY_GENERATED holding one not-yet-validated generated
query whose text validates. -/
def state_one_generated : VizGenieState :=
  { mkState [] [] with
    current_stage := ProcessingStage.QUERY_GENERATED
    generated_queries := [⟨"u1", "q one", "up", "prometheus", false, none⟩] }

/-- Claim C9, witness: the concrete one-query state that validates on the
first attempt ends the tick with the validated entry twice. -/
theorem generated_queries_duplicated_witness :
    (validate_query_step state_one_generated).generated_queries =
      validate_generated state_one_generated.generated_queries ++
        validate_generated state_one_generated.generated_queries ∧
    (validate_query_step state_one_generated).generated_queries.length =
      2 * state_one_generated.generated_queries.length ∧
    (validate_query_step state_one_generated).current_stage =
      ProcessingStage.QUERY_VALIDATED ∧
    ((validate_query_step state_one_generated).generated_queries.filter
      (fun g => g.is_valid)).length = 2 * state_one_generated.generated_queries.length :=
  generated_queries_duplicated state_one_generated (by decide)

/-- The same providers with the PromQL generation call routed through a
context whose similar_metrics and labels are blanked. -/
def emptiedPromql (P : Providers) : Providers :=
  { P with generate_promql := fun t c =>
      P.generate_promql t { c with similar_metrics := [], labels := [] } }

/-- Auxiliary: the extract-metrics loop, when it succeeds, produces one
context per query. -/
theorem extract_metrics_loop_length (Q : Providers) :
    ∀ (qs : List QueryContext) (em : List MetricsContext),
      extract_metrics_loop Q qs = Except.ok em → em.length = qs.length := by
  intro qs
  induction qs with
  | nil =>
    intro em h
    simp only [extract_metrics_loop, Except.ok.injEq] at h
    subst h
    rfl
  | cons q qs ih =>
    intro em h
    simp only [extract_metrics_loop] at h
    by_cases hq : q.query_type = QueryType.PROMETHEUS
    · simp only [if_pos hq] at h
      cases he : Q.extract_metrics q.query_text q.datasource_name with
      | error e => simp only [he] at h; exact Except.noConfusion h
      | ok r =>
        simp only [he] at h
        cases hl : extract_metrics_loop Q qs with
        | error e => simp only [hl, Except.map] at h; exact Except.noConfusion h
        | ok rest =>
          simp only [hl, Except.map, Except.ok.injEq] at h
          subst h
          simp [ih rest hl]
    · simp only [if_neg hq] at h
      cases hl : extract_metrics_loop Q qs with
      | error e => simp only [hl, Except.map] at h; exact Except.noConfusion h
      | ok rest =>
        simp only [hl, Except.map, Except.ok.injEq] at h
        subst h
        simp [ih rest hl]

/-- Auxiliary: every context the extract-metrics loop produces has empty
similar_metrics and metric_labels. -/
theorem extract_metrics_loop_empty_fields (Q : Providers) :
    ∀ (qs : List QueryContext) (em : List MetricsContext),
      extract_metrics_loop Q qs = Except.ok em →
      ∀ mc ∈ em, mc.similar_metrics = [] ∧ mc.metric_labels = [] := by
  intro qs
  induction qs with
  | nil =>
    intro em h
    simp only [extract_metrics_loop, Except.ok.injEq] at h
    subst h
    intro mc hmc
    simp at hmc
  | cons q qs ih =>
    intro em h
    simp only [extract_metrics_loop] at h
    by_cases hq : q.query_type = QueryType.PROMETHEUS
    · simp only [if_pos hq] at h
      cases he : Q.extract_metrics q.query_text q.datasource_name with
      | error e => simp only [he] at h; exact Except.noConfusion h
      | ok r =>
        simp only [he] at h
        cases hl : extract_metrics_loop Q qs with
        | error e => simp only [hl, Except.map] at h; exact Except.noConfusion h
        | ok rest =>
          simp only [hl, Except.map, Except.ok.injEq] at h
          subst h
          intro mc hmc
          rcases List.mem_cons.mp hmc with h1 | h2
          · subst h1; exact ⟨rfl, rfl⟩
          · exact ih rest hl mc h2
    · simp only [if_neg hq] at h
      cases hl : extract_metrics_loop Q qs with
      | error e => simp only [hl, Except.map] at h; exact Except.noConfusion h
      | ok rest =>
        simp only [hl, Except.map, Except.ok.injEq] at h
        subst h
        intro mc hmc
        rcases List.mem_cons.mp hmc with h1 | h2
        · subst h1; exact ⟨rfl, rfl⟩
        · exact ih rest hl mc h2

/-- Auxiliary: when every context the generation loop can index has empty
similar_metrics and metric_labels, blanking those fields before the
PromQL provider call changes nothing. -/
theorem generate_query_loop_empty_ctx (P : Providers) (t : Nat)
    (mcs : List MetricsContext) :
    ∀ (qs : List QueryContext) (idx : Nat),
      (∀ j, idx ≤ j → j < idx + qs.length →
        ∃ mc, mcs.get? j = some mc ∧ mc.similar_metrics = [] ∧ mc.metric_labels = []) →
      generate_query_loop P t mcs qs idx =
        generate_query_loop (emptiedPromql P) t mcs qs idx := by
  intro qs
  induction qs with
  | nil => intro idx hm; rfl
  | cons q qs ih =>
    intro idx hm
    simp only [generate_query_loop]
    by_cases hq : q.query_type = QueryType.PROMETHEUS
    · simp only [if_pos hq]
      obtain ⟨mc, hget, hsim, hlab⟩ := hm idx le_rfl (by simp)
      simp only [hget]
      have hsame : (emptiedPromql P).generate_promql t
          ⟨q.datasource_uid, q.query_text, mc.similar_metrics, mc.metric_labels⟩ =
          P.generate_promql t
          ⟨q.datasource_uid, q.query_text, mc.similar_metrics, mc.metric_labels⟩ := by
        simp [emptiedPromql, hsim, hlab]
      rw [hsame]
      cases P.generate_promql t
          ⟨q.datasource_uid, q.query_text, mc.similar_metrics, mc.metric_labels⟩ with
      | error e => rfl
      | ok r =>
        rw [ih (idx + 1) (fun j h1 h2 => hm j (by omega)
          (by rw [List.length_cons]; omega))]
    · simp only [if_neg hq]
      by_cases hq2 : q.query_type = QueryType.POSTGRES
      · simp only [if_pos hq2]
        have hsql : (emptiedPromql P).generate_sql = P.generate_sql := rfl
        have hsch : (emptiedPromql P).schema_context = P.schema_context := rfl
        rw [hsql, hsch]
        cases P.generate_sql t q.query_text q.datasource_uid P.schema_context with
        | error e => rfl
        | ok r =>
          rw [ih (idx + 1) (fun j h1 h2 => hm j (by omega)
            (by rw [List.length_cons]; omega))]
      · simp only [if_neg hq2]
        exact ih (idx + 1) (fun j h1 h2 => hm j (by omega)
          (by rw [List.length_cons]; omega))

/-- Claim C10: in a state whose metrics_contexts channel is the
ExtractMetrics output followed by any re-emitted tail (the merged shape
after VectorSearch under the operator.add reducer), the generation loop
indexes only the first half: each index below the query count reads the
ExtractMetrics entry, every such entry has empty similar_metrics and
metric_labels, and therefore blanking those fields at the PromQL provider
boundary leaves generate_query_node unchanged — the provider is only ever
invoked with empty similarity context. -/
theorem promql_generated_from_presearch_context (P Q : Providers) (t : Nat)
    (s : VizGenieState) (em rest : List MetricsContext)
    (hem : extract_metrics_loop Q s.user_queries = Except.ok em)
    (hs : s.metrics_contexts = em ++ rest) :
    (∀ i, i < s.user_queries.length → s.metrics_contexts.get? i = em.get? i) ∧
    (∀ mc ∈ em, mc.similar_metrics = [] ∧ mc.metric_labels = []) ∧
    generate_query_node P t s = generate_query_node (emptiedPromql P) t s := by
  have hlen := extract_metrics_loop_length Q s.user_queries em hem
  have hemp := extract_metrics_loop_empty_fields Q s.user_queries em hem
  have hidx : ∀ i, i < s.user_queries.length → s.metrics_contexts.get? i = em.get? i := by
    intro i hi
    rw [hs]
    exact List.get?_append (by omega)
  refine ⟨hidx, hemp, ?_⟩
  have hloop : generate_query_loop P t s.metrics_contexts s.user_queries 0 =
      generate_query_loop (emptiedPromql P) t s.metrics_contexts s.user_queries 0 := by
    apply generate_query_loop_empty_ctx
    intro j h0 hj
    have hj2 : j < em.length := by omega
    have hg : em.get? j = some (em.get ⟨j, hj2⟩) := List.get?_eq_get hj2
    refine ⟨em.get ⟨j, hj2⟩, ?_, hemp _ (List.get_mem em j hj2)⟩
    rw [hidx j (by omega), hg]
  simp only [generate_query_node, hloop]

/-- A classified metric query whose context work is complete. -/
def q_classified : QueryContext :=
  ⟨"cpu usage", "prometheus", "p1", "prometheus", QueryType.PROMETHEUS⟩

/-- The context entry ExtractMetrics produces for the classified query
under the test providers. -/
def mc_presearch : MetricsContext := ⟨["cpu_usage"], ["pod"], [], []⟩

/-- The enriched entry VectorSearch re-emits for the same query. -/
def mc_enriched : MetricsContext :=
  ⟨["cpu_usage"], ["pod"], ["cpu_usage_total"], [("cpu_usage_total", ["pod", "node"])]⟩

/-- The merged one-query state after VectorSearch: the ExtractMetrics
entry followed by the re-emitted enriched entry. -/
def state_after_search : VizGenieState :=
  { mkState [q_classified] [ds_prom] with
    current_stage := ProcessingStage.SIMILARITY_SEARCHED
    metrics_contexts := [mc_presearch, mc_enriched] }

/-- Claim C10, witness: the concrete merged state reads the pre-search
entry at index zero and the PromQL provider sees only the blank
context. -/
theorem promql_presearch_witness :
    (∀ i, i < state_after_search.user_queries.length →
      state_after_search.metrics_contexts.get? i = [mc_presearch].get? i) ∧
    (∀ mc ∈ [mc_presearch], mc.similar_metrics = [] ∧ mc.metric_labels = []) ∧
    generate_query_node (testProviders okGen) 0 state_after_search =
      generate_query_node (emptiedPromql (testProviders okGen)) 0 state_after_search :=
  promql_generated_from_presearch_context (testProviders okGen) (testProviders okGen) 0
    state_after_search [mc_presearch] [mc_enriched] (by rfl) (by rfl)

end VizGenie




